import Mathlib

/-!
Verification development for the `mysql-connector-cpp` build recipe
(`recipes/mysql-connector-cpp/all/conanfile.py`).

The recipe is shallowly embedded: each method of the `MysqlCppConnRecipe`
class becomes a pure Lean function over explicit platform facts, option
sets and an in-memory source tree.  Machine-level details that the recipe
delegates to the conan framework (string find/replace, version comparison,
`os.path.join`) are embedded as executable Lean functions; path joining is
modelled with the POSIX separator.
-/

/-! ## Platform facts (conan `settings`) -/

/-- Operating systems distinguished by the recipe (`settings.os`). -/
inductive OSKind
  | Windows
  | Linux
  | FreeBSD
  | Macos
  | iOS
  | watchOS
  | tvOS
  | visionOS
  | Android
deriving DecidableEq

/-- Build types distinguished by the recipe (`settings.build_type`). -/
inductive BuildType
  | Release
  | Debug
deriving DecidableEq

/-- The platform/compiler facts one resolution run reads
(`settings.os`, `settings.compiler`, `settings.compiler.version`,
`settings.compiler.cppstd`, the MSVC runtime flavour, `settings.arch`,
`cross_building`, `settings.build_type`).  A dotted version string such as
`"9.2"` is embedded as the numeric component list `[9, 2]`. -/
structure PlatformFacts where
  os : OSKind
  compilerName : String
  compilerVersion : List Nat
  cppstd : Option Nat
  msvcRuntimeStatic : Bool
  arch : String
  isCrossCompiling : Bool
  buildType : BuildType
deriving DecidableEq

/-- `conan.tools.apple.is_apple_os`: the OS is one of the Apple family. -/
def isAppleOS (f : PlatformFacts) : Bool :=
  f.os = .Macos || f.os = .iOS || f.os = .watchOS || f.os = .tvOS || f.os = .visionOS

/-- `conan.tools.microsoft.is_msvc`: the compiler is `"Visual Studio"` or `"msvc"`. -/
def isMsvc (f : PlatformFacts) : Bool :=
  f.compilerName == "Visual Studio" || f.compilerName == "msvc"

/-- `conan.tools.microsoft.is_msvc_static_runtime`: an MSVC compiler whose
configured runtime links the C runtime statically. -/
def isMsvcStaticRuntime (f : PlatformFacts) : Bool :=
  isMsvc f && f.msvcRuntimeStatic

/-- Conan `Version` comparison on numeric component lists: lexicographic,
padding the shorter version with zero components (an exhausted left version
is below the right one exactly when some remaining right component is
positive; an exhausted right version is never above). -/
def versionLt : List Nat → List Nat → Bool
  | [], bs => bs.any (fun b => decide (0 < b))
  | _ :: _, [] => false
  | a :: as, b :: bs => decide (a < b) || (a == b && versionLt as bs)

/-! ## Compatibility validator (`validate`) -/

/-- The `_minimum_compilers_version` table of the recipe, with each minimum
version string parsed into its numeric component list. -/
def minimumCompilersVersion : List (String × List Nat) :=
  [("Visual Studio", [14]),
   ("msvc", [192]),
   ("gcc", [8]),
   ("clang", [7]),
   ("apple-clang", [10])]

/-- Whether a declared `cppstd` value satisfies `check_min_cppstd(self, "17")`:
in the conan ordering of standards `98` precedes all two-digit standards, so the
minimum is met exactly by `17`, `20`, `23`, ... -/
def cppstdMeets17 (v : Nat) : Bool :=
  v != 98 && decide (17 ≤ v)

/-- The failures the embedded pipeline can raise: `ConanInvalidConfiguration`
from `check_min_cppstd`, `ConanInvalidConfiguration` from the compiler
minimum-version check (carrying the compiler name and the required minimum),
and `ConanException` from a strict `replace_in_file` whose search text is
absent (carrying the search text). -/
inductive ConanError
  | invalidCppstd (required : Nat)
  | unsupportedToolchain (compilerName : String) (minimumVersion : List Nat)
  | patchApplicationError (findText : String)
deriving DecidableEq

/-- The compiler minimum-version check of `validate`:
`minimum_version = self._minimum_compilers_version.get(compiler_name, False)`
followed by `if minimum_version and Version(compiler.version) < minimum_version`.
A compiler family absent from the table yields the falsy `False`, so the guard
is skipped and the check passes. -/
def validateCompilerMinimum (f : PlatformFacts) : Except ConanError Unit :=
  match List.lookup f.compilerName minimumCompilersVersion with
  | some m =>
    if versionLt f.compilerVersion m then
      .error (.unsupportedToolchain f.compilerName m)
    else
      .ok ()
  | none => .ok ()

/-- `validate`: first `check_min_cppstd(self, "17")` when the profile declares
a `cppstd`, then the compiler minimum-version check. -/
def validate (f : PlatformFacts) : Except ConanError Unit :=
  match f.cppstd with
  | some v =>
    if cppstdMeets17 v then validateCompilerMinimum f else .error (.invalidCppstd 17)
  | none => validateCompilerMinimum f

/-- The language-standard gate of `validate` passes: no `cppstd` is declared,
or the declared one meets C++17. -/
def cppstdOk (f : PlatformFacts) : Bool :=
  match f.cppstd with
  | some v => cppstdMeets17 v
  | none => true

/-! ## Option normalization (`config_options` / `configure`) -/

/-- The option set of the recipe.  `fPIC` is `none` once removed by `rm_safe`. -/
structure OptionSet where
  shared : Bool
  fPIC : Option Bool
deriving DecidableEq

/-- The declared defaults: `{"shared": False, "fPIC": True}`. -/
def defaultOptions : OptionSet :=
  { shared := false, fPIC := some true }

/-- `config_options`: on Windows, `fPIC` is removed. -/
def config_options (f : PlatformFacts) (o : OptionSet) : OptionSet :=
  if f.os = .Windows then { o with fPIC := none } else o

/-- `configure`: when `shared` is set, `fPIC` is removed. -/
def configure (o : OptionSet) : OptionSet :=
  if o.shared then { o with fPIC := none } else o

/-- The effective option set after the conan normalization steps ran in their
fixed order (`config_options`, then `configure`). -/
def normalizeOptions (f : PlatformFacts) (o : OptionSet) : OptionSet :=
  configure (config_options f o)

/-! ## Python string primitives

The conan helpers the recipe calls (`replace_in_file`, `str.replace`) work on
text.  They are embedded over `List Char` with structurally recursive,
fully executable functions. -/

/-- Whether `pat` is a prefix of the first list (character-wise). -/
def listStartsWith : List Char → List Char → Bool
  | _, [] => true
  | [], _ :: _ => false
  | a :: as, b :: bs => a == b && listStartsWith as bs

/-- Whether `pat` occurs as a contiguous sublist. -/
def occursChars (pat : List Char) : List Char → Bool
  | [] => pat.isEmpty
  | c :: cs => listStartsWith (c :: cs) pat || occursChars pat cs

/-- Replace every (non-overlapping, leftmost-first) occurrence of `pat` by
`repl`, with explicit fuel; `fuel` at least the length of the input makes the
scan complete. -/
def replaceCharsFuel (pat repl : List Char) : Nat → List Char → List Char
  | _, [] => []
  | 0, s => s
  | fuel + 1, c :: cs =>
    if !pat.isEmpty && listStartsWith (c :: cs) pat then
      repl ++ replaceCharsFuel pat repl fuel (List.drop (pat.length - 1) cs)
    else
      c :: replaceCharsFuel pat repl fuel cs

/-- The Python `pat in s` substring test. -/
def pyContains (s pat : String) : Bool :=
  occursChars pat.data s.data

/-- The Python `s.replace(pat, repl)` operation: every non-overlapping occurrence,
scanned left to right. -/
def pyReplace (s pat repl : String) : String :=
  ⟨replaceCharsFuel pat.data repl.data s.data.length s.data⟩

/-! ## Variable set builder (`generate`) -/

/-- The dependency package folders `generate` reads, already fetched from the
dependency store: the four host dependencies and the build-scope protobuf
(`self.dependencies.build["protobuf"]`). -/
structure ResolvedDeps where
  openssl : String
  lz4 : String
  zlib : String
  zstd : String
  protobufBuild : String
deriving DecidableEq

/-- `_package_folder_dep`: the package folder of a dependency with backslashes
normalized to forward slashes. -/
def packageFolderDep (p : String) : String :=
  pyReplace p "\\" "/"

/-- A CMake cache-variable value as the recipe stores it: a string or a bool. -/
inductive CacheValue
  | str (v : String)
  | bool (v : Bool)
deriving DecidableEq

/-- `generate`: the `tc.cache_variables` mapping handed to the CMake
toolchain, in the order the recipe assigns the keys. -/
def generate (deps : ResolvedDeps) (o : OptionSet) : List (String × CacheValue) :=
  [("WITH_SSL", .str (packageFolderDep deps.openssl)),
   ("WITH_LZ4", .str (packageFolderDep deps.lz4)),
   ("WITH_ZLIB", .str (packageFolderDep deps.zlib)),
   ("WITH_ZSTD", .str (packageFolderDep deps.zstd)),
   ("BUILD_STATIC", .bool (!o.shared)),
   ("BUILD_SHARED_LIBS", .bool o.shared),
   ("BOOST_DIR", .str "FALSE"),
   ("WITH_PROTOBUF", .str (packageFolderDep deps.protobufBuild))]

/-! ## Consumption metadata (`package_info`) -/

/-- `os.path.join` on two components, modelled with the POSIX separator. -/
def osPathJoin (a b : String) : String :=
  a ++ "/" ++ b

/-- The slice of `self.cpp_info` the recipe fills in `package_info`. -/
structure CppInfo where
  libdirs : List String
  systemLibs : List String
  defines : List String
  libs : List String
  cmakeTargetName : String
  cmakeTargetAliases : List String
deriving DecidableEq

/-- `package_info`, statement by statement.  The two consecutive assignments
to `self.cpp_info.defines` in the not-shared branch are kept as written in the
source: the second assignment overwrites the first, so only `STATIC_CONCPP`
survives.  The `target` string the source builds alongside `target_alias` is
never read afterwards; it is kept here as the unused `_target`. -/
def package_info (f : PlatformFacts) (o : OptionSet) : CppInfo :=
  let lib_dir := if f.buildType = .Release then ["lib"] else [osPathJoin "lib" "debug"]
  let lib_dir := if isMsvc f then [osPathJoin (lib_dir.headD "") "vs14"] else lib_dir
  let system_libs : List String := []
  let system_libs :=
    if isAppleOS f || f.os = .Linux || f.os = .FreeBSD then
      let system_libs := system_libs ++ ["resolv"]
      if f.os = .Linux || f.os = .FreeBSD then
        system_libs ++ ["m", "pthread"]
      else
        system_libs
    else system_libs
  let _target := "concpp-xdevapi"
  let target_alias := "concpp"
  let _target := if o.shared then _target ++ "-static" else _target
  let target_alias := if o.shared then target_alias ++ "-static" else target_alias
  let _target := if f.buildType = .Debug then _target ++ "-debug" else _target
  let target_alias := if f.buildType = .Debug then target_alias ++ "-debug" else target_alias
  let lib := if o.shared then "mysqlcppconnx" else "mysqlcppconnx-static"
  let lib := if isMsvc f && !o.shared && isMsvcStaticRuntime f then lib ++ "-mt" else lib
  let defines : List String := []
  let defines :=
    if !o.shared then
      let defines := ["MYSQL_STATIC"]
      let defines := ["STATIC_CONCPP"]
      defines
    else defines
  { libdirs := lib_dir
    systemLibs := system_libs
    defines := defines
    libs := [lib]
    cmakeTargetName := "mysql::concpp"
    cmakeTargetAliases := ["mysql::" ++ target_alias] }

/-! ## Patch orchestrator (`_patch_sources`) -/

/-- The five files `_patch_sources` may touch, as an in-memory source tree:
`install_layout.cmake`, the top-level `CMakeLists.txt`,
`cdk/cmake/DepFindProtobuf.cmake`, `cdk/protocol/mysqlx/CMakeLists.txt` and
`cdk/core/CMakeLists.txt`. -/
structure SourceTree where
  installLayout : String
  cmakeLists : String
  depFindProtobuf : String
  protocolCMake : String
  coreCMake : String
deriving DecidableEq

/-- Modelled from the spec: `conan.tools.files.replace_in_file` is external
conan-framework code, not part of the sources of this repository.  Per the specified
PatchRule invariant, when the search text occurs in the file the occurrence is
replaced; when it is absent a `strict` call fails (`PatchApplicationError`
naming the search text) while a `strict := false` call is a no-op returning
the content unchanged. -/
def replaceInFile (strict : Bool) (find repl content : String) : Except ConanError String :=
  if pyContains content find then
    .ok (pyReplace content find repl)
  else if strict then
    .error (.patchApplicationError find)
  else
    .ok content

/-- Search text of the tolerant MSVC static-naming rule. -/
def msvcStaticNamingFind : String :=
  "set(LIB_NAME_STATIC \"${LIB_NAME}-mt\")"

/-- Replacement text of the tolerant MSVC static-naming rule. -/
def msvcStaticNamingRepl : String :=
  "set(LIB_NAME_STATIC \"${LIB_NAME_STATIC}-mt\")"

/-- Anchor line of the tolerant Apple cross-compilation injection rule. -/
def appleAnchor : String :=
  "PROJECT(MySQL_CONCPP)"

/-- Search text of the first strict protobuf rule (drop protobuf-lite). -/
def protobufLiteFind : String :=
  "LIBRARY protobuf-lite pb_libprotobuf-lite"

/-- Search text of the second strict protobuf rule (build-type library name). -/
def protobufLibFind : String :=
  "LIBRARY protobuf"

/-- Search text of the strict `ext::protobuf-lite` target rules. -/
def extProtobufLiteFind : String :=
  "ext::protobuf-lite"

/-- First section of `_patch_sources`: when building static with MSVC, fix the
static library naming in `install_layout.cmake` with a tolerant
(`strict=False`) replacement. -/
def msvcNamingStep (f : PlatformFacts) (o : OptionSet) (t : SourceTree) :
    Except ConanError SourceTree :=
  if !o.shared && isMsvc f then
    match replaceInFile false msvcStaticNamingFind msvcStaticNamingRepl t.installLayout with
    | .ok c => .ok { t with installLayout := c }
    | .error e => .error e
  else
    .ok t

/-- The directive `_patch_sources` injects for a cross-compiled Apple build,
forcing `CMAKE_OSX_ARCHITECTURES` to the requested target architecture. -/
def appleArchPatch (arch : String) : String :=
  "set(CMAKE_OSX_ARCHITECTURES \"" ++ arch ++ "\" CACHE INTERNAL \"\" FORCE)\n"

/-- Second section of `_patch_sources`: on an Apple OS while cross building,
inject a forced `CMAKE_OSX_ARCHITECTURES` directive right after the
`PROJECT(MySQL_CONCPP)` anchor of `CMakeLists.txt`, tolerantly
(`strict=False`). -/
def appleArchStep (f : PlatformFacts) (t : SourceTree) :
    Except ConanError SourceTree :=
  if isAppleOS f && f.isCrossCompiling then
    match replaceInFile false appleAnchor (appleAnchor ++ "\n" ++ appleArchPatch f.arch)
        t.cmakeLists with
    | .ok c => .ok { t with cmakeLists := c }
    | .error e => .error e
  else
    .ok t

/-- The local `protobuf` variable of the source: `"protobufd"` when the resolved
build-scope protobuf dependency was built in Debug, else `"protobuf"`. -/
def protobufName (protobufBuildDebug : Bool) : String :=
  if protobufBuildDebug then "protobufd" else "protobuf"

/-- Third section of `_patch_sources`: the four strict protobuf name
substitutions, in source order.  `protobufBuildDebug` is whether the resolved
build-scope protobuf dependency was built in Debug, which selects the
`protobufd` library name. -/
def protobufSteps (protobufBuildDebug : Bool) (t : SourceTree) :
    Except ConanError SourceTree :=
  match replaceInFile true protobufLiteFind "" t.depFindProtobuf with
  | .error e => .error e
  | .ok c1 =>
    match replaceInFile true protobufLibFind
        ("LIBRARY " ++ protobufName protobufBuildDebug) c1 with
    | .error e => .error e
    | .ok c2 =>
      match replaceInFile true extProtobufLiteFind
          ("ext::" ++ protobufName protobufBuildDebug) t.protocolCMake with
      | .error e => .error e
      | .ok c3 =>
        match replaceInFile true extProtobufLiteFind
            ("ext::" ++ protobufName protobufBuildDebug) t.coreCMake with
        | .error e => .error e
        | .ok c4 =>
          .ok { t with depFindProtobuf := c2, protocolCMake := c3, coreCMake := c4 }

/-- `_patch_sources`: the three sections in source order; the first failing
replacement aborts the run. -/
def patch_sources (f : PlatformFacts) (o : OptionSet) (protobufBuildDebug : Bool)
    (t : SourceTree) : Except ConanError SourceTree :=
  match msvcNamingStep f o t with
  | .error e => .error e
  | .ok t1 =>
    match appleArchStep f t1 with
    | .error e => .error e
    | .ok t2 => protobufSteps protobufBuildDebug t2

/-! ## Concrete configurations used to exercise the embedding -/

/-- A Linux/gcc-9/Release host, no explicit `cppstd` (spec scenario 7). -/
def linuxGcc9Release : PlatformFacts :=
  { os := .Linux, compilerName := "gcc", compilerVersion := [9], cppstd := none,
    msvcRuntimeStatic := false, arch := "x86_64", isCrossCompiling := false,
    buildType := .Release }

/-- A Windows/msvc-193 host with static runtime, Debug build. -/
def windowsMsvcStaticDebug : PlatformFacts :=
  { os := .Windows, compilerName := "msvc", compilerVersion := [193], cppstd := none,
    msvcRuntimeStatic := true, arch := "x86_64", isCrossCompiling := false,
    buildType := .Debug }

/-- A Windows/msvc-191 host: below the table minimum 192 (spec scenario 8). -/
def windowsMsvc191 : PlatformFacts :=
  { windowsMsvcStaticDebug with
    compilerVersion := [191]
    msvcRuntimeStatic := false
    buildType := .Release }

/-- A Linux host whose compiler family is absent from the minimum-version table. -/
def linuxIntelCc : PlatformFacts :=
  { linuxGcc9Release with compilerName := "intel-cc", compilerVersion := [2021] }

/-- A Macos/apple-clang host cross building for `armv8`. -/
def macosCrossArm : PlatformFacts :=
  { os := .Macos, compilerName := "apple-clang", compilerVersion := [14], cppstd := none,
    msvcRuntimeStatic := false, arch := "armv8", isCrossCompiling := true,
    buildType := .Release }

/-- The default effective options on a non-Windows static build. -/
def staticOpts : OptionSet := { shared := false, fPIC := some true }

/-- A shared build (after normalization `fPIC` is gone). -/
def sharedOpts : OptionSet := { shared := true, fPIC := none }

/-- A source tree whose `DepFindProtobuf.cmake` lacks the strict
protobuf-lite search text (and whose other files lack every anchor). -/
def treeLiteAbsent : SourceTree :=
  { installLayout := "IL", cmakeLists := "CML",
    depFindProtobuf := "no markers here", protocolCMake := "P", coreCMake := "Q" }

/-- A source tree containing every strict search text, but neither the MSVC
static-naming text in `install_layout.cmake` nor the `PROJECT` anchor in
`CMakeLists.txt`. -/
def treeStrictPresent : SourceTree :=
  { installLayout := "IL", cmakeLists := "CML",
    depFindProtobuf := "LIBRARY protobuf-lite pb_libprotobuf-lite LIBRARY protobuf",
    protocolCMake := "ext::protobuf-lite", coreCMake := "ext::protobuf-lite" }

/-- `treeStrictPresent` after a successful release-protobuf patch run. -/
def treeStrictPresentPatched : SourceTree :=
  { installLayout := "IL", cmakeLists := "CML",
    depFindProtobuf := " LIBRARY protobuf",
    protocolCMake := "ext::protobuf", coreCMake := "ext::protobuf" }

/-! ## Helper lemmas on the patch steps -/

theorem replaceInFile_false_ok (find repl c : String) :
    replaceInFile false find repl c =
      .ok (if pyContains c find then pyReplace c find repl else c) := by
  unfold replaceInFile
  split <;> simp_all

theorem replaceInFile_true_eq (find repl c : String) :
    replaceInFile true find repl c =
      (if pyContains c find then .ok (pyReplace c find repl)
       else .error (.patchApplicationError find)) := by
  unfold replaceInFile
  split <;> simp_all

theorem replaceInFile_true_error (find repl c : String) (e : ConanError)
    (h : replaceInFile true find repl c = .error e) :
    e = .patchApplicationError find := by
  rw [replaceInFile_true_eq] at h
  by_cases hc : pyContains c find <;> simp [hc] at h
  exact h.symm

theorem msvcNamingStep_ok (f : PlatformFacts) (o : OptionSet) (t : SourceTree) :
    ∃ u, msvcNamingStep f o t = .ok u
      ∧ u.cmakeLists = t.cmakeLists
      ∧ u.depFindProtobuf = t.depFindProtobuf
      ∧ u.protocolCMake = t.protocolCMake
      ∧ u.coreCMake = t.coreCMake
      ∧ (pyContains t.installLayout msvcStaticNamingFind = false →
          u.installLayout = t.installLayout) := by
  unfold msvcNamingStep
  split
  · rw [replaceInFile_false_ok]
    refine ⟨_, rfl, rfl, rfl, rfl, rfl, ?_⟩
    intro h
    simp [h]
  · exact ⟨t, rfl, rfl, rfl, rfl, rfl, fun _ => rfl⟩

theorem appleArchStep_ok (f : PlatformFacts) (t : SourceTree) :
    ∃ u, appleArchStep f t = .ok u
      ∧ u.installLayout = t.installLayout
      ∧ u.depFindProtobuf = t.depFindProtobuf
      ∧ u.protocolCMake = t.protocolCMake
      ∧ u.coreCMake = t.coreCMake
      ∧ (pyContains t.cmakeLists appleAnchor = false →
          u.cmakeLists = t.cmakeLists) := by
  unfold appleArchStep
  split
  · rw [replaceInFile_false_ok]
    refine ⟨_, rfl, rfl, rfl, rfl, rfl, ?_⟩
    intro h
    simp [h]
  · exact ⟨t, rfl, rfl, rfl, rfl, rfl, fun _ => rfl⟩

theorem protobufSteps_lite_absent (pd : Bool) (t : SourceTree)
    (h : pyContains t.depFindProtobuf protobufLiteFind = false) :
    protobufSteps pd t = .error (.patchApplicationError protobufLiteFind) := by
  unfold protobufSteps
  rw [replaceInFile_true_eq]
  simp [h]

theorem protobufSteps_error_cases (pd : Bool) (t : SourceTree) (e : ConanError)
    (h : protobufSteps pd t = .error e) :
    e = .patchApplicationError protobufLiteFind ∨
    e = .patchApplicationError protobufLibFind ∨
    e = .patchApplicationError extProtobufLiteFind := by
  unfold protobufSteps at h
  cases h1 : replaceInFile true protobufLiteFind "" t.depFindProtobuf with
  | error e1 =>
    rw [h1] at h
    simp only [Except.error.injEq] at h
    exact Or.inl (h ▸ replaceInFile_true_error _ _ _ _ h1)
  | ok c1 =>
    rw [h1] at h
    dsimp only at h
    cases h2 : replaceInFile true protobufLibFind
        ("LIBRARY " ++ protobufName pd) c1 with
    | error e2 =>
      rw [h2] at h
      simp only [Except.error.injEq] at h
      exact Or.inr (Or.inl (h ▸ replaceInFile_true_error _ _ _ _ h2))
    | ok c2 =>
      rw [h2] at h
      dsimp only at h
      cases h3 : replaceInFile true extProtobufLiteFind
          ("ext::" ++ protobufName pd) t.protocolCMake with
      | error e3 =>
        rw [h3] at h
        simp only [Except.error.injEq] at h
        exact Or.inr (Or.inr (h ▸ replaceInFile_true_error _ _ _ _ h3))
      | ok c3 =>
        rw [h3] at h
        dsimp only at h
        cases h4 : replaceInFile true extProtobufLiteFind
            ("ext::" ++ protobufName pd) t.coreCMake with
        | error e4 =>
          rw [h4] at h
          simp only [Except.error.injEq] at h
          exact Or.inr (Or.inr (h ▸ replaceInFile_true_error _ _ _ _ h4))
        | ok c4 =>
          rw [h4] at h
          simp at h

theorem protobufSteps_preserves (pd : Bool) (t t' : SourceTree)
    (h : protobufSteps pd t = .ok t') :
    t'.installLayout = t.installLayout ∧ t'.cmakeLists = t.cmakeLists := by
  unfold protobufSteps at h
  cases h1 : replaceInFile true protobufLiteFind "" t.depFindProtobuf with
  | error e1 => rw [h1] at h; simp at h
  | ok c1 =>
    rw [h1] at h
    dsimp only at h
    cases h2 : replaceInFile true protobufLibFind
        ("LIBRARY " ++ protobufName pd) c1 with
    | error e2 => rw [h2] at h; simp at h
    | ok c2 =>
      rw [h2] at h
      dsimp only at h
      cases h3 : replaceInFile true extProtobufLiteFind
          ("ext::" ++ protobufName pd) t.protocolCMake with
      | error e3 => rw [h3] at h; simp at h
      | ok c3 =>
        rw [h3] at h
        dsimp only at h
        cases h4 : replaceInFile true extProtobufLiteFind
            ("ext::" ++ protobufName pd) t.coreCMake with
        | error e4 => rw [h4] at h; simp at h
        | ok c4 =>
          rw [h4] at h
          simp only [Except.ok.injEq] at h
          subst h
          exact ⟨rfl, rfl⟩

/-! ## Claims -/

/-- Claim C1: for a compiler family present in the minimum-version table whose
configured version is strictly below the table minimum, `validate` fails with
the unsupported-toolchain error naming the compiler and the required minimum;
for a family absent from the table the minimum-version check imposes no
constraint, so (with the language-standard gate passing) `validate` succeeds
whatever the configured version is. -/
theorem c1_compiler_minimum_gate (f : PlatformFacts) :
    (∀ m, List.lookup f.compilerName minimumCompilersVersion = some m →
      versionLt f.compilerVersion m = true →
      cppstdOk f = true →
      validate f = .error (.unsupportedToolchain f.compilerName m))
    ∧ (List.lookup f.compilerName minimumCompilersVersion = none →
      cppstdOk f = true →
      validate f = .ok ()) := by
  have hmin : ∀ m, List.lookup f.compilerName minimumCompilersVersion = some m →
      versionLt f.compilerVersion m = true →
      validateCompilerMinimum f = .error (.unsupportedToolchain f.compilerName m) := by
    intro m hm hlt
    unfold validateCompilerMinimum
    rw [hm]
    simp [hlt]
  have hnone : List.lookup f.compilerName minimumCompilersVersion = none →
      validateCompilerMinimum f = .ok () := by
    intro hm
    unfold validateCompilerMinimum
    rw [hm]
  constructor
  · intro m hm hlt hstd
    unfold validate
    unfold cppstdOk at hstd
    cases hc : f.cppstd with
    | none => exact hmin m hm hlt
    | some v =>
      rw [hc] at hstd
      dsimp only at hstd
      simp [hstd, hmin m hm hlt]
  · intro hm hstd
    unfold validate
    unfold cppstdOk at hstd
    cases hc : f.cppstd with
    | none => exact hnone hm
    | some v =>
      rw [hc] at hstd
      dsimp only at hstd
      simp [hstd, hnone hm]

/-- Witness for C1: msvc 191 is below the table minimum 192 and is rejected
(naming the compiler and minimum), while the `intel-cc` family is absent from
the table and version 2021 passes. -/
theorem c1_witness :
    validate windowsMsvc191 = .error (.unsupportedToolchain "msvc" [192])
    ∧ validate linuxIntelCc = .ok () :=
  ⟨(c1_compiler_minimum_gate windowsMsvc191).1 [192] rfl rfl rfl,
   (c1_compiler_minimum_gate linuxIntelCc).2 rfl rfl⟩

/-- Claim C2 (code bug evidence): with `shared=false` the source assigns
`cpp_info.defines` twice in a row, so the emitted definitions are
`["STATIC_CONCPP"]` alone — `MYSQL_STATIC` never survives, contradicting the
intended fixed pair; with `shared=true` the definitions are empty. -/
theorem c2_static_defines_overwritten :
    (package_info linuxGcc9Release staticOpts).defines = ["STATIC_CONCPP"]
    ∧ "MYSQL_STATIC" ∉ (package_info linuxGcc9Release staticOpts).defines
    ∧ (package_info linuxGcc9Release sharedOpts).defines = [] := by
  refine ⟨rfl, ?_, rfl⟩
  decide

/-- Claim C3: the emitted library name is the fixed base `mysqlcppconnx` when
shared, `mysqlcppconnx-static` when static, and carries the extra `-mt` suffix
exactly for a static build on an MSVC toolchain with static runtime; on
Linux/gcc with `shared=false` it is `mysqlcppconnx-static`. -/
theorem c3_library_name (f : PlatformFacts) (o : OptionSet) :
    (o.shared = true → (package_info f o).libs = ["mysqlcppconnx"])
    ∧ (o.shared = false → isMsvcStaticRuntime f = false →
        (package_info f o).libs = ["mysqlcppconnx-static"])
    ∧ (o.shared = false → isMsvcStaticRuntime f = true →
        (package_info f o).libs = ["mysqlcppconnx-static-mt"])
    ∧ (f.os = .Linux → f.compilerName = "gcc" → o.shared = false →
        (package_info f o).libs = ["mysqlcppconnx-static"]) := by
  refine ⟨?_, ?_, ?_, ?_⟩
  · intro hs
    simp [package_info, hs]
  · intro hs hr
    simp [package_info, hs, hr]
  · intro hs hr
    have hm : isMsvc f = true := by
      unfold isMsvcStaticRuntime at hr
      exact (Bool.and_eq_true _ _ |>.mp hr).1
    simp [package_info, hs, hr, hm]
  · intro _ hcn hs
    have hm : isMsvc f = false := by
      unfold isMsvc
      rw [hcn]
      rfl
    have hr : isMsvcStaticRuntime f = false := by
      unfold isMsvcStaticRuntime
      rw [hm]
      rfl
    simp [package_info, hs, hr, hm]

/-- Witness for C3: concrete evaluations on Linux/gcc (static and shared) and
on an MSVC static-runtime Debug host. -/
theorem c3_witness :
    (package_info linuxGcc9Release sharedOpts).libs = ["mysqlcppconnx"]
    ∧ (package_info linuxGcc9Release staticOpts).libs = ["mysqlcppconnx-static"]
    ∧ (package_info windowsMsvcStaticDebug staticOpts).libs = ["mysqlcppconnx-static-mt"] :=
  ⟨(c3_library_name linuxGcc9Release sharedOpts).1 rfl,
   (c3_library_name linuxGcc9Release staticOpts).2.2.2 rfl rfl rfl,
   (c3_library_name windowsMsvcStaticDebug staticOpts).2.2.1 rfl rfl⟩

/-- Claim C4: in a patch run, a strict protobuf substitution whose search text
is absent from its target file aborts the pipeline with the patch error naming
that text, while the tolerant MSVC static-naming rule (active: static build on
MSVC) with its search text absent causes no failure of its own — any failure
comes from a strict rule — and leaves `install_layout.cmake` unmutated. -/
theorem c4_strict_fails_tolerant_noop (f : PlatformFacts) (o : OptionSet) (pd : Bool)
    (t : SourceTree) :
    (pyContains t.depFindProtobuf protobufLiteFind = false →
      patch_sources f o pd t = .error (.patchApplicationError protobufLiteFind))
    ∧ (∀ t', o.shared = false → isMsvc f = true →
        pyContains t.installLayout msvcStaticNamingFind = false →
        patch_sources f o pd t = .ok t' → t'.installLayout = t.installLayout)
    ∧ (∀ e, o.shared = false → isMsvc f = true →
        pyContains t.installLayout msvcStaticNamingFind = false →
        patch_sources f o pd t = .error e →
        e = .patchApplicationError protobufLiteFind ∨
        e = .patchApplicationError protobufLibFind ∨
        e = .patchApplicationError extProtobufLiteFind) := by
  obtain ⟨u, hu, hucml, hudfp, hupc, hucc, huil⟩ := msvcNamingStep_ok f o t
  obtain ⟨v, hv, hvil, hvdfp, hvpc, hvcc, hvcml⟩ := appleArchStep_ok f u
  refine ⟨?_, ?_, ?_⟩
  · intro habs
    unfold patch_sources
    rw [hu]
    dsimp only
    rw [hv]
    dsimp only
    apply protobufSteps_lite_absent
    rw [hvdfp, hudfp]
    exact habs
  · intro t' _ _ habs hrun
    unfold patch_sources at hrun
    rw [hu] at hrun
    dsimp only at hrun
    rw [hv] at hrun
    dsimp only at hrun
    have hpres := (protobufSteps_preserves pd v t' hrun).1
    rw [hpres, hvil, huil habs]
  · intro e _ _ _ hrun
    unfold patch_sources at hrun
    rw [hu] at hrun
    dsimp only at hrun
    rw [hv] at hrun
    dsimp only at hrun
    exact protobufSteps_error_cases pd v e hrun

/-- Witness for C4: on an MSVC static build, a tree missing the strict
protobuf-lite text makes the run fail with exactly that patch error, and on a
tree where every strict text is present the run succeeds with
`install_layout.cmake` (which lacks the text of the tolerant rule) unchanged. -/
theorem c4_witness :
    patch_sources windowsMsvcStaticDebug staticOpts false treeLiteAbsent =
      .error (.patchApplicationError protobufLiteFind)
    ∧ treeStrictPresentPatched.installLayout = treeStrictPresent.installLayout :=
  ⟨(c4_strict_fails_tolerant_noop windowsMsvcStaticDebug staticOpts false treeLiteAbsent).1 rfl,
   (c4_strict_fails_tolerant_noop windowsMsvcStaticDebug staticOpts false
      treeStrictPresent).2.1 treeStrictPresentPatched rfl rfl rfl rfl⟩

/-- Claim C5: after normalization `shared` is untouched; `fPIC` is removed
whenever `shared=true`, and on Windows regardless of `shared`; otherwise the
user value survives, and the declared default makes it `true`. -/
theorem c5_fpic_removal (f : PlatformFacts) (o : OptionSet) :
    ((normalizeOptions f o).shared = o.shared)
    ∧ (o.shared = true → (normalizeOptions f o).fPIC = none)
    ∧ (f.os = .Windows → (normalizeOptions f o).fPIC = none)
    ∧ (f.os ≠ .Windows → o.shared = false → (normalizeOptions f o).fPIC = o.fPIC)
    ∧ (f.os ≠ .Windows → (normalizeOptions f defaultOptions).fPIC = some true) := by
  unfold normalizeOptions configure config_options defaultOptions
  by_cases hw : f.os = .Windows <;> by_cases hs : o.shared <;>
    simp [hw, hs]

/-- Witness for C5: on Windows/msvc the normalized default options drop
`fPIC`; on Linux/gcc they keep it at `true`; a shared build drops it. -/
theorem c5_witness :
    (normalizeOptions windowsMsvcStaticDebug defaultOptions).fPIC = none
    ∧ (normalizeOptions linuxGcc9Release defaultOptions).fPIC = some true
    ∧ (normalizeOptions linuxGcc9Release sharedOpts).fPIC = none :=
  ⟨(c5_fpic_removal windowsMsvcStaticDebug defaultOptions).2.2.1 rfl,
   (c5_fpic_removal linuxGcc9Release defaultOptions).2.2.2.2 (by decide),
   (c5_fpic_removal linuxGcc9Release sharedOpts).2.1 rfl⟩

/-- Claim C6: the variable set always carries `BUILD_STATIC = not shared` and
`BUILD_SHARED_LIBS = shared`: exactly one of the two flags is true, never both
and never neither. -/
theorem c6_exclusive_link_flags (deps : ResolvedDeps) (o : OptionSet) :
    List.lookup "BUILD_STATIC" (generate deps o) = some (.bool (!o.shared))
    ∧ List.lookup "BUILD_SHARED_LIBS" (generate deps o) = some (.bool o.shared)
    ∧ ((!o.shared) || o.shared) = true
    ∧ ((!o.shared) && o.shared) = false := by
  refine ⟨rfl, rfl, ?_, ?_⟩ <;> cases o.shared <;> rfl

/-- Claim C7: the emitted system libraries contain `resolv` exactly on
Apple-family, Linux or FreeBSD hosts, and `m`/`pthread` exactly on
Linux/FreeBSD; on Linux the set contains all of `resolv`, `m`, `pthread`, and
on Windows it is empty. -/
theorem c7_system_libs (f : PlatformFacts) (o : OptionSet) :
    ("resolv" ∈ (package_info f o).systemLibs ↔
      (isAppleOS f = true ∨ f.os = .Linux ∨ f.os = .FreeBSD))
    ∧ ("m" ∈ (package_info f o).systemLibs ↔ (f.os = .Linux ∨ f.os = .FreeBSD))
    ∧ ("pthread" ∈ (package_info f o).systemLibs ↔ (f.os = .Linux ∨ f.os = .FreeBSD))
    ∧ (f.os = .Windows → (package_info f o).systemLibs = [])
    ∧ (f.os = .Linux →
        "resolv" ∈ (package_info f o).systemLibs ∧
        "m" ∈ (package_info f o).systemLibs ∧
        "pthread" ∈ (package_info f o).systemLibs) := by
  obtain ⟨os, cn, cv, std, rt, ar, cc, bt⟩ := f
  cases os <;> simp [package_info, isAppleOS]

/-- Witness for C7: on Linux the three libraries are all present; on Windows
the list is empty. -/
theorem c7_witness :
    (package_info linuxGcc9Release staticOpts).systemLibs = ["resolv", "m", "pthread"]
    ∧ (package_info windowsMsvcStaticDebug staticOpts).systemLibs = [] :=
  ⟨rfl, (c7_system_libs windowsMsvcStaticDebug staticOpts).2.2.2.1 rfl⟩

/-- Claim C8: `lib_search_dirs` is always a single directory: `lib` for a
Release build, `lib/debug` for a Debug build, each additionally nested under
the MSVC toolset subdirectory `vs14` on an MSVC toolchain. -/
theorem c8_lib_search_dirs (f : PlatformFacts) (o : OptionSet) :
    ((package_info f o).libdirs.length = 1)
    ∧ (f.buildType = .Release → isMsvc f = false → (package_info f o).libdirs = ["lib"])
    ∧ (f.buildType = .Debug → isMsvc f = false → (package_info f o).libdirs = ["lib/debug"])
    ∧ (f.buildType = .Release → isMsvc f = true → (package_info f o).libdirs = ["lib/vs14"])
    ∧ (f.buildType = .Debug → isMsvc f = true →
        (package_info f o).libdirs = ["lib/debug/vs14"]) := by
  refine ⟨?_, ?_, ?_, ?_, ?_⟩
  · cases hbt : f.buildType <;> by_cases hm : isMsvc f <;>
      simp [package_info, hbt, hm]
  · intro hbt hm
    simp [package_info, hbt, hm, osPathJoin]
  · intro hbt hm
    simp [package_info, hbt, hm, osPathJoin]
  · intro hbt hm
    simp [package_info, hbt, hm, osPathJoin]
  · intro hbt hm
    simp [package_info, hbt, hm, osPathJoin]

/-- Witness for C8: the four build-type × toolchain combinations. -/
theorem c8_witness :
    (package_info linuxGcc9Release staticOpts).libdirs = ["lib"]
    ∧ (package_info windowsMsvcStaticDebug staticOpts).libdirs = ["lib/debug/vs14"]
    ∧ (package_info { linuxGcc9Release with buildType := .Debug } staticOpts).libdirs =
        ["lib/debug"]
    ∧ (package_info { windowsMsvcStaticDebug with buildType := .Release } staticOpts).libdirs =
        ["lib/vs14"] :=
  ⟨(c8_lib_search_dirs linuxGcc9Release staticOpts).2.1 rfl rfl,
   (c8_lib_search_dirs windowsMsvcStaticDebug staticOpts).2.2.2.2 rfl rfl,
   (c8_lib_search_dirs { linuxGcc9Release with buildType := .Debug } staticOpts).2.2.1 rfl rfl,
   (c8_lib_search_dirs { windowsMsvcStaticDebug with buildType := .Release } staticOpts).2.2.2.1
     rfl rfl⟩

/-- Claim C9: the canonical CMake target name is always `mysql::concpp`; the
single alias is the base `mysql::concpp` with `-static` appended when
`shared=true` (the historical naming), then `-debug` when the build type is
Debug; for a static Release build the alias list is exactly
`["mysql::concpp"]`. -/
theorem c9_target_names (f : PlatformFacts) (o : OptionSet) :
    ((package_info f o).cmakeTargetName = "mysql::concpp")
    ∧ ((package_info f o).cmakeTargetAliases =
        [("mysql::concpp" ++ (if o.shared then "-static" else "")) ++
          (if f.buildType = .Debug then "-debug" else "")])
    ∧ (o.shared = false → f.buildType = .Release →
        (package_info f o).cmakeTargetAliases = ["mysql::concpp"]) := by
  refine ⟨by simp [package_info], ?_, ?_⟩
  · cases hs : o.shared <;> cases hbt : f.buildType <;>
      simp [package_info, hs, hbt]
  · intro hs hbt
    simp [package_info, hs, hbt]

/-- Witness for C9: static Release gives exactly `["mysql::concpp"]`; shared
Debug gives the suffixed alias. -/
theorem c9_witness :
    (package_info linuxGcc9Release staticOpts).cmakeTargetAliases = ["mysql::concpp"]
    ∧ (package_info { linuxGcc9Release with buildType := .Debug }
        sharedOpts).cmakeTargetAliases = ["mysql::concpp-static-debug"] :=
  ⟨(c9_target_names linuxGcc9Release staticOpts).2.2 rfl rfl,
   by
    have h := (c9_target_names { linuxGcc9Release with buildType := .Debug } sharedOpts).2.1
    simpa using h⟩

/-- Claim C10: the Apple cross-compilation injection rule is tolerant: when
the rule is active (Apple OS, cross building) but the `PROJECT(MySQL_CONCPP)`
anchor is absent from `CMakeLists.txt`, a successful run leaves
`CMakeLists.txt` unmutated (no architecture directive is forced in), and any
failure of the run comes from a strict protobuf rule, never from this one. -/
theorem c10_apple_anchor_tolerant (f : PlatformFacts) (o : OptionSet) (pd : Bool)
    (t : SourceTree) (happle : isAppleOS f = true) (hcross : f.isCrossCompiling = true)
    (habs : pyContains t.cmakeLists appleAnchor = false) :
    (∀ t', patch_sources f o pd t = .ok t' → t'.cmakeLists = t.cmakeLists)
    ∧ (∀ e, patch_sources f o pd t = .error e →
        e = .patchApplicationError protobufLiteFind ∨
        e = .patchApplicationError protobufLibFind ∨
        e = .patchApplicationError extProtobufLiteFind) := by
  obtain ⟨u, hu, hucml, hudfp, hupc, hucc, huil⟩ := msvcNamingStep_ok f o t
  obtain ⟨v, hv, hvil, hvdfp, hvpc, hvcc, hvcml⟩ := appleArchStep_ok f u
  refine ⟨?_, ?_⟩
  · intro t' hrun
    unfold patch_sources at hrun
    rw [hu] at hrun
    dsimp only at hrun
    rw [hv] at hrun
    dsimp only at hrun
    have hpres := (protobufSteps_preserves pd v t' hrun).2
    rw [hpres, hvcml (by rw [hucml]; exact habs), hucml]
  · intro e hrun
    unfold patch_sources at hrun
    rw [hu] at hrun
    dsimp only at hrun
    rw [hv] at hrun
    dsimp only at hrun
    exact protobufSteps_error_cases pd v e hrun

/-- Witness for C10: a cross-compiled Macos run on a tree whose
`CMakeLists.txt` lacks the anchor succeeds (all strict texts present) with
`CMakeLists.txt` unchanged. -/
theorem c10_witness :
    patch_sources macosCrossArm staticOpts false treeStrictPresent =
      .ok treeStrictPresentPatched
    ∧ treeStrictPresentPatched.cmakeLists = treeStrictPresent.cmakeLists :=
  ⟨rfl,
   (c10_apple_anchor_tolerant macosCrossArm staticOpts false treeStrictPresent rfl rfl rfl).1
     treeStrictPresentPatched rfl⟩
